import Mathlib

set_option maxHeartbeats 1000000

/-! Shallow embedding of the session lifecycle and scoring engine of the
Star Wars character match service (`src/character_generator_backend/src/api/main.py`).

Modelling conventions:
* Python dicts are association lists (`List (String × _)`) that preserve
  insertion order; `d[k] = v` keeps the position of an existing key and
  appends a fresh key at the end, exactly as CPython dicts do.
* Float weights/scores are modelled as rationals `ℚ`.
* Wall-clock instants (`datetime.utcnow()`, the parsed `expires_at`) are
  naturals; the caller passes `now` explicitly.
* Handlers that mutate the global stores are functions
  `St → ... → St × Except Err α`: a raised `HTTPException` becomes an
  `Except.error` paired with the store state at the moment of the raise.
* The filesystem (uploaded blobs) is an external collaborator, passed as a
  predicate `blobExists : String → Bool`; the fresh upload file name
  (`uuid4`) is passed in as a parameter. -/

/-- Association-list lookup, modelling Python `d.get(k)`. -/
def alookup {α : Type} : List (String × α) → String → Option α
  | [], _ => none
  | p :: ps, k => if p.1 = k then some p.2 else alookup ps k

/-- Association-list update, modelling Python `d[k] = v`: an existing key keeps
its position (first occurrence is replaced), a new key is appended at the end. -/
def setKey {α : Type} : List (String × α) → String → α → List (String × α)
  | [], k, v => [(k, v)]
  | p :: ps, k, v => if p.1 = k then (k, v) :: ps else p :: setKey ps k v

/-- Error taxonomy of the service, mirroring the `HTTPException` status codes
used in `main.py`: 404, 410 and 400 with their `detail` strings. -/
inductive Err : Type where
  | notFound (detail : String)
  | gone (detail : String)
  | badRequest (detail : String)
  deriving DecidableEq

/-- A choice of a quiz question (`class Choice` in `main.py`); `weights` maps
character ids to weights. -/
structure Choice where
  id : String
  text : String
  weights : List (String × ℚ)
  deriving DecidableEq

/-- A quiz question (`class Question`). -/
structure Question where
  id : String
  text : String
  choices : List Choice
  order : Int
  deriving DecidableEq

/-- A character profile (`class Character`). -/
structure Character where
  id : String
  name : String
  description : String
  image_url : Option String
  traits : List (String × ℚ)
  deriving DecidableEq

/-- A quiz definition (`class Quiz`); the timestamp strings are opaque here. -/
structure Quiz where
  id : String
  title : String
  description : Option String
  question_ids : List String
  created_at : String
  updated_at : String
  deriving DecidableEq

/-- A user session, as stored in `SESSION_STORE` by `create_session`. -/
structure Session where
  id : String
  created_at : Nat
  expires_at : Nat
  answers : List (String × String)
  uploads : List String
  quiz_id : Option String
  scored : Bool
  deriving DecidableEq

/-- A per-character score (`class ScoreResult`). -/
structure ScoreResult where
  character_id : String
  score : ℚ
  deriving DecidableEq

/-- The matching result for a session (`class MatchResult`); the `created_at`
timestamp string is dropped as it never influences behaviour. -/
structure MatchResult where
  session_id : String
  quiz_id : String
  top_match : Option ScoreResult
  scores : List ScoreResult
  character : Option Character
  portrait_url : Option String
  deriving DecidableEq

/-- An entry of `RESULT_STORE`: a dict that may hold a stored match (under key
`"match"`, here `matchRes`) and a generated portrait url. -/
structure ResultEntry where
  matchRes : Option MatchResult
  portrait_url : Option String
  deriving DecidableEq

/-- The value `RESULT_STORE.get(session_id, \x7b\x7d)` defaults to. -/
def emptyEntry : ResultEntry := { matchRes := none, portrait_url := none }

/-- The global in-memory stores of `main.py` (`QUIZ_STORE`, `QUESTION_STORE`,
`CHARACTER_STORE`, `SESSION_STORE`, `RESULT_STORE`). -/
structure St where
  quizzes : List (String × Quiz)
  questions : List (String × Question)
  characters : List (String × Character)
  sessions : List (String × Session)
  results : List (String × ResultEntry)
  deriving DecidableEq

/-- Python string-option truthiness: `None` and `""` are falsy.  Used for the
`if not quiz_id` and `if portrait_url` checks. -/
def strFalsy : Option String → Bool
  | none => true
  | some s => s = ""

/-- `_get_quiz_or_404` of `main.py`. -/
def get_quiz_or_404 (st : St) (quiz_id : String) : Except Err Quiz :=
  match alookup st.quizzes quiz_id with
  | none => .error (.notFound "Quiz not found")
  | some q => .ok q

/-- `_get_question_or_404` of `main.py`. -/
def get_question_or_404 (st : St) (question_id : String) : Except Err Question :=
  match alookup st.questions question_id with
  | none => .error (.notFound "Question not found")
  | some q => .ok q

/-- `_get_character_or_404` of `main.py`. -/
def get_character_or_404 (st : St) (character_id : String) : Except Err Character :=
  match alookup st.characters character_id with
  | none => .error (.notFound "Character not found")
  | some c => .ok c

/-- `_get_session_or_404` of `main.py`: 404 when the id is absent, 410 when
`now` is strictly past `expires_at` (sessions always carry an `expires_at`
set by `create_session`, so the truthiness guard on it is always taken).
The lookup never mutates the store. -/
def get_session_or_404 (st : St) (now : Nat) (session_id : String) : Except Err Session :=
  match alookup st.sessions session_id with
  | none => .error (.notFound "Session not found")
  | some session =>
    if now > session.expires_at then .error (.gone "Session expired")
    else .ok session

/-- `submit_answer` of `main.py` (POST /answers).  Validation (session, quiz,
question, choice membership) happens before any mutation; on success the
session's `answers[question_id]`, `quiz_id` and `scored` fields are updated. -/
def submit_answer (st : St) (now : Nat) (session_id quiz_id question_id choice_id : String) :
    St × Except Err Unit :=
  match get_session_or_404 st now session_id with
  | .error e => (st, .error e)
  | .ok session =>
    match get_quiz_or_404 st quiz_id with
    | .error e => (st, .error e)
    | .ok _ =>
      match get_question_or_404 st question_id with
      | .error e => (st, .error e)
      | .ok q =>
        if (q.choices.map Choice.id).contains choice_id then
          let session' : Session :=
            { session with
              answers := setKey session.answers question_id choice_id
              quiz_id := some quiz_id
              scored := false }
          ({ st with sessions := setKey st.sessions session_id session' }, .ok ())
        else (st, .error (.badRequest "Invalid choice for question"))

/-- Body of the tally update `if char_id in tally: tally[char_id] += w`
in `_compute_scores`: a key present in the tally has the weight added in
place, an absent key leaves the tally unchanged. -/
def addWeight (tally : List (String × ℚ)) (cid : String) (w : ℚ) : List (String × ℚ) :=
  tally.map fun p => if p.1 = cid then (p.1, p.2 + w) else p

/-- The inner loop `for char_id, w in weights.items()` of `_compute_scores`. -/
def applyWeights (tally : List (String × ℚ)) (ws : List (String × ℚ)) : List (String × ℚ) :=
  ws.foldl (fun t p => addWeight t p.1 p.2) tally

/-- One iteration of the answers loop of `_compute_scores`: the question is a
hard 404 when missing, the choice is silently skipped when missing. -/
def scoreAnswer (st : St) (tally : List (String × ℚ)) (a : String × String) :
    Except Err (List (String × ℚ)) :=
  match get_question_or_404 st a.1 with
  | .error e => .error e
  | .ok q =>
    match q.choices.find? (fun c => c.id = a.2) with
    | none => .ok tally
    | some choice => .ok (applyWeights tally choice.weights)

/-- The answers loop of `_compute_scores`, threading the tally. -/
def foldTally (st : St) : List (String × String) → List (String × ℚ) →
    Except Err (List (String × ℚ))
  | [], tally => .ok tally
  | a :: rest, tally =>
    match scoreAnswer st tally a with
    | .error e => .error e
    | .ok t => foldTally st rest t

/-- Stable insertion of a score into a descending list: the new element goes
after every element whose score is ≥ its own. -/
def insertScore (r : ScoreResult) : List ScoreResult → List ScoreResult
  | [] => [r]
  | x :: xs => if x.score ≤ r.score then r :: x :: xs else x :: insertScore r xs

/-- Stable sort by score descending, modelling
`results.sort(key=lambda r: r.score, reverse=True)` (Python's sort is stable). -/
def sortScoresDesc : List ScoreResult → List ScoreResult
  | [] => []
  | x :: xs => insertScore x (sortScoresDesc xs)

/-- `_compute_scores` of `main.py`: initialise a 0 tally for every character
currently in `CHARACTER_STORE`, fold the session's answers into it, and return
the per-character scores sorted descending. -/
def compute_scores (st : St) (session : Session) : Except Err (List ScoreResult) :=
  match foldTally st session.answers (st.characters.map fun p => (p.1, (0 : ℚ))) with
  | .error e => .error e
  | .ok tally =>
    .ok (sortScoresDesc (tally.map fun p => { character_id := p.1, score := p.2 }))

/-- The `if top and top.score > 0` block of `compute_match`: resolve the top
character only for a strictly positive top score. -/
def resolveTopCharacter (st : St) (top : Option ScoreResult) : Except Err (Option Character) :=
  match top with
  | none => .ok none
  | some t =>
    if 0 < t.score then
      match get_character_or_404 st t.character_id with
      | .error e => .error e
      | .ok c => .ok (some c)
    else .ok none

/-- Tail of `compute_match`: build the `MatchResult`, store it under
`RESULT_STORE[session_id]["match"]` (keeping any previously generated
portrait url in the entry) and set `session["scored"] = True`. -/
def finishMatch (st : St) (session_id quiz_id : String) (session : Session)
    (top : Option ScoreResult) (scores : List ScoreResult) (character : Option Character) :
    St × Except Err MatchResult :=
  let result : MatchResult :=
    { session_id := session_id
      quiz_id := quiz_id
      top_match := top
      scores := scores
      character := character
      portrait_url := none }
  let entry := (alookup st.results session_id).getD emptyEntry
  ({ st with
      results := setKey st.results session_id { entry with matchRes := some result }
      sessions := setKey st.sessions session_id { session with scored := true } },
   .ok result)

/-- `compute_match` of `main.py` (POST /match/session_id). -/
def compute_match (st : St) (now : Nat) (session_id : String) :
    St × Except Err MatchResult :=
  match get_session_or_404 st now session_id with
  | .error e => (st, .error e)
  | .ok session =>
    if strFalsy session.quiz_id then (st, .error (.badRequest "No quiz selected in session"))
    else
      match compute_scores st session with
      | .error e => (st, .error e)
      | .ok scores =>
        match resolveTopCharacter st scores.head? with
        | .error e => (st, .error e)
        | .ok character =>
          finishMatch st session_id (session.quiz_id.getD "") session
            scores.head? scores character

/-- `upload_selfie` of `main.py` (POST /upload/selfie); `fname` stands for the
freshly generated `uuid4`-based file name, and the blob write is external. -/
def upload_selfie (st : St) (now : Nat) (session_id content_type fname : String) :
    St × Except Err String :=
  match get_session_or_404 st now session_id with
  | .error e => (st, .error e)
  | .ok session =>
    if content_type = "image/jpeg" ∨ content_type = "image/png" then
      let rel_path := "/media/uploads/" ++ fname
      ({ st with
          sessions := setKey st.sessions session_id
            { session with uploads := session.uploads ++ [rel_path] } },
       .ok rel_path)
    else (st, .error (.badRequest "Unsupported file type"))

/-- `generate_portrait` of `main.py` (POST /generate/session_id); `blobExists`
models `os.path.exists` on the uploaded blob referenced by a stored upload
path, and the byte-copy "generation" step is external. -/
def generate_portrait (st : St) (now : Nat) (session_id : String)
    (blobExists : String → Bool) : St × Except Err String :=
  match get_session_or_404 st now session_id with
  | .error e => (st, .error e)
  | .ok session =>
    if session.uploads.isEmpty then
      (st, .error (.badRequest "No selfie uploaded for session"))
    else
      let entry := (alookup st.results session_id).getD emptyEntry
      match entry.matchRes with
      | none => (st, .error (.badRequest "No match computed for session"))
      | some m =>
        match m.top_match with
        | none => (st, .error (.badRequest "No match computed for session"))
        | some _ =>
          let last_upload := session.uploads.getLastD ""
          if blobExists last_upload then
            let rel_out := "/media/results/portrait_" ++ session_id ++ ".png"
            ({ st with
                results := setKey st.results session_id
                  { entry with portrait_url := some rel_out } },
             .ok rel_out)
          else (st, .error (.notFound "Uploaded file not found on server"))

/-- `get_result` of `main.py` (GET /results/session_id): read-only; merges the
separately tracked portrait url into the stored match. -/
def get_result (st : St) (now : Nat) (session_id : String) : Except Err MatchResult :=
  match get_session_or_404 st now session_id with
  | .error e => .error e
  | .ok _ =>
    let res := (alookup st.results session_id).getD emptyEntry
    match res.matchRes with
    | none => .error (.notFound "No result for session")
    | some m =>
      match res.portrait_url with
      | none => .ok m
      | some u => if u = "" then .ok m else .ok { m with portrait_url := some u }

deriving instance DecidableEq for Except

/-! Concrete store states for evaluating the operations: the demo data seeded
by `_seed_demo_data` in `main.py`, plus a few sessions. -/

/-- The three seeded characters (`CHARACTER_STORE` after `_seed_demo_data`). -/
def seedCharacters : List (String × Character) :=
  [("vader",
    { id := "vader", name := "Darth Vader",
      description := "A powerful Sith Lord with a tragic past.",
      image_url := some "/media/characters/vader.png",
      traits := [("dark", 9/10), ("leader", 8/10), ("calm", 2/10)] }),
   ("luke",
    { id := "luke", name := "Luke Skywalker",
      description := "A brave Jedi Knight striving for peace.",
      image_url := some "/media/characters/luke.png",
      traits := [("light", 9/10), ("hope", 8/10), ("calm", 6/10)] }),
   ("leia",
    { id := "leia", name := "Princess Leia",
      description := "A courageous leader of the Rebel Alliance.",
      image_url := some "/media/characters/leia.png",
      traits := [("leader", 9/10), ("light", 7/10), ("diplomacy", 8/10)] })]

/-- The two seeded questions (`QUESTION_STORE` after `_seed_demo_data`). -/
def seedQuestions : List (String × Question) :=
  [("q1",
    { id := "q1", text := "Pick your ideal weekend activity:", order := 1,
      choices :=
        [{ id := "c1", text := "Meditating and reflecting", weights := [("luke", 1)] },
         { id := "c2", text := "Strategizing a mission", weights := [("leia", 1)] },
         { id := "c3", text := "Harnessing the power of the dark side", weights := [("vader", 1)] }] }),
   ("q2",
    { id := "q2", text := "Choose a guiding principle:", order := 2,
      choices :=
        [{ id := "c4", text := "Hope", weights := [("luke", 1)] },
         { id := "c5", text := "Order", weights := [("vader", 1)] },
         { id := "c6", text := "Leadership", weights := [("leia", 1)] }] })]

/-- The seeded quiz (`QUIZ_STORE` after `_seed_demo_data`). -/
def seedQuizzes : List (String × Quiz) :=
  [("default",
    { id := "default", title := "Which Star Wars Character Are You?",
      description := some "Answer questions to find your Star Wars alter ego!",
      question_ids := ["q1", "q2"],
      created_at := "t0", updated_at := "t0" })]

/-- A session record expiring at instant 100, for concrete evaluations. -/
def mkSession (answers : List (String × String)) (quiz_id : Option String)
    (uploads : List String) : Session :=
  { id := "s1", created_at := 0, expires_at := 100, answers := answers,
    uploads := uploads, quiz_id := quiz_id, scored := false }

/-- Seeded stores plus a given session store and result store. -/
def baseSt (sessions : List (String × Session)) (results : List (String × ResultEntry)) : St :=
  { quizzes := seedQuizzes, questions := seedQuestions, characters := seedCharacters,
    sessions := sessions, results := results }

/-! Association-list lemmas. -/

theorem alookup_setKey_self {α : Type} (m : List (String × α)) (k : String) (v : α) :
    alookup (setKey m k v) k = some v := by
  induction m with
  | nil => simp [setKey, alookup]
  | cons p ps ih =>
    by_cases h : p.1 = k
    · simp [setKey, h, alookup]
    · simp [setKey, h, alookup, ih]

theorem alookup_setKey_ne {α : Type} (m : List (String × α)) (k k' : String) (v : α)
    (h : k ≠ k') : alookup (setKey m k v) k' = alookup m k' := by
  induction m with
  | nil => simp [setKey, alookup, h]
  | cons p ps ih =>
    by_cases hp : p.1 = k
    · simp [setKey, hp, alookup, h, hp ▸ h]
    · simp [setKey, hp, alookup, ih]

theorem setKey_setKey {α : Type} (m : List (String × α)) (k : String) (v₁ v₂ : α) :
    setKey (setKey m k v₁) k v₂ = setKey m k v₂ := by
  induction m with
  | nil => simp [setKey]
  | cons p ps ih =>
    by_cases h : p.1 = k
    · simp [setKey, h]
    · simp [setKey, h, ih]

theorem alookup_eq_none_iff {α : Type} (m : List (String × α)) (k : String) :
    alookup m k = none ↔ k ∉ m.map Prod.fst := by
  induction m with
  | nil => simp [alookup]
  | cons p ps ih =>
    by_cases h : p.1 = k
    · simp [alookup, h]
    · simp [alookup, h, ih, Ne.symm h]

theorem alookup_isSome_of_mem {α : Type} (m : List (String × α)) (k : String)
    (h : k ∈ m.map Prod.fst) : ∃ v, alookup m k = some v := by
  cases hx : alookup m k with
  | none => exact absurd h ((alookup_eq_none_iff m k).mp hx)
  | some v => exact ⟨v, rfl⟩

theorem setKey_eq_append {α : Type} (m : List (String × α)) (k : String) (v : α)
    (h : alookup m k = none) : setKey m k v = m ++ [(k, v)] := by
  induction m with
  | nil => simp [setKey]
  | cons p ps ih =>
    by_cases hp : p.1 = k
    · rw [alookup, if_pos hp] at h; cases h
    · rw [alookup, if_neg hp] at h
      simp [setKey, hp, ih h]

/-! Sorting lemmas: `sortScoresDesc` is a permutation and its output is
pairwise descending in score. -/

theorem insertScore_perm (r : ScoreResult) (l : List ScoreResult) :
    (insertScore r l).Perm (r :: l) := by
  induction l with
  | nil => simp [insertScore]
  | cons x xs ih =>
    rw [insertScore]
    by_cases h : x.score ≤ r.score
    · rw [if_pos h]
    · rw [if_neg h]
      exact (ih.cons x).trans (List.Perm.swap r x xs)

theorem sortScoresDesc_perm (l : List ScoreResult) : (sortScoresDesc l).Perm l := by
  induction l with
  | nil => simp [sortScoresDesc]
  | cons x xs ih => exact (insertScore_perm x _).trans (ih.cons x)

theorem insertScore_sorted (r : ScoreResult) (l : List ScoreResult)
    (h : l.Pairwise fun a b => b.score ≤ a.score) :
    (insertScore r l).Pairwise fun a b => b.score ≤ a.score := by
  induction l with
  | nil => simp [insertScore]
  | cons x xs ih =>
    rcases List.pairwise_cons.mp h with ⟨hx, hxs⟩
    rw [insertScore]
    by_cases hc : x.score ≤ r.score
    · rw [if_pos hc]
      refine List.Pairwise.cons ?_ h
      intro b hb
      rcases List.mem_cons.mp hb with rfl | hbx
      · exact hc
      · exact le_trans (hx b hbx) hc
    · rw [if_neg hc]
      refine List.Pairwise.cons ?_ (ih hxs)
      intro b hb
      rcases List.mem_cons.mp ((insertScore_perm r xs).mem_iff.mp hb) with rfl | hbx
      · exact le_of_not_le hc
      · exact hx b hbx

theorem sortScoresDesc_sorted (l : List ScoreResult) :
    (sortScoresDesc l).Pairwise fun a b => b.score ≤ a.score := by
  induction l with
  | nil => simp [sortScoresDesc]
  | cons x xs ih => exact insertScore_sorted x _ ih

/-! Characterisation of the scoring fold: after processing the answers, each
character's tally is the sum, over the answers, of the weight the answered
choice assigns to that character (0 when the choice is dangling or assigns
no weight to it). -/

/-- Total weight a weight map assigns to a character id (the weights list of a
choice is a dict, so in reachable states it has at most one entry per key). -/
def sumWeights (ws : List (String × ℚ)) (cid : String) : ℚ :=
  ((ws.filter fun p => p.1 = cid).map Prod.snd).sum

/-- The choice an answer resolves to: the question looked up in the store, and
within it the first choice with the answered id. -/
def answerChoice (st : St) (a : String × String) : Option Choice :=
  (alookup st.questions a.1).bind fun q => q.choices.find? fun c => c.id = a.2

/-- Contribution of one answer to one character's tally. -/
def answerWeight (st : St) (cid : String) (a : String × String) : ℚ :=
  match answerChoice st a with
  | none => 0
  | some ch => sumWeights ch.weights cid

/-- Sum of a character's contributions over a list of answers. -/
def totalScore (st : St) (answers : List (String × String)) (cid : String) : ℚ :=
  (answers.map (answerWeight st cid)).sum

theorem sumWeights_nil (cid : String) : sumWeights [] cid = 0 := rfl

theorem sumWeights_cons (p : String × ℚ) (ws : List (String × ℚ)) (cid : String) :
    sumWeights (p :: ws) cid = (if p.1 = cid then p.2 else 0) + sumWeights ws cid := by
  by_cases h : p.1 = cid <;> simp [sumWeights, List.filter_cons, h]

theorem totalScore_nil (st : St) (cid : String) : totalScore st [] cid = 0 := rfl

theorem totalScore_cons (st : St) (a : String × String) (rest : List (String × String))
    (cid : String) :
    totalScore st (a :: rest) cid = answerWeight st cid a + totalScore st rest cid := by
  simp [totalScore]

theorem totalScore_append (st : St) (l₁ l₂ : List (String × String)) (cid : String) :
    totalScore st (l₁ ++ l₂) cid = totalScore st l₁ cid + totalScore st l₂ cid := by
  simp [totalScore]

theorem applyWeights_eq (tally ws : List (String × ℚ)) :
    applyWeights tally ws = tally.map fun p => (p.1, p.2 + sumWeights ws p.1) := by
  induction ws generalizing tally with
  | nil =>
    simp [applyWeights, sumWeights]
  | cons w ws ih =>
    have hstep : applyWeights tally (w :: ws) = applyWeights (addWeight tally w.1 w.2) ws := rfl
    rw [hstep, ih, addWeight, List.map_map]
    congr 1
    funext p
    by_cases h : p.1 = w.1
    · simp [Function.comp, h, sumWeights_cons, add_assoc]
    · simp [Function.comp, h, sumWeights_cons, Ne.symm h]


/-! Step equations for `scoreAnswer`, `foldTally` and `compute_scores`. -/

theorem scoreAnswer_eq_error (st : St) (tally : List (String × ℚ)) (a : String × String)
    (h : alookup st.questions a.1 = none) :
    scoreAnswer st tally a = .error (.notFound "Question not found") := by
  simp [scoreAnswer, get_question_or_404, h]

theorem scoreAnswer_eq_skip (st : St) (tally : List (String × ℚ)) (a : String × String)
    (q : Question) (hq : alookup st.questions a.1 = some q)
    (hf : q.choices.find? (fun c => c.id = a.2) = none) :
    scoreAnswer st tally a = .ok tally := by
  simp [scoreAnswer, get_question_or_404, hq, hf]

theorem scoreAnswer_eq_apply (st : St) (tally : List (String × ℚ)) (a : String × String)
    (q : Question) (ch : Choice) (hq : alookup st.questions a.1 = some q)
    (hf : q.choices.find? (fun c => c.id = a.2) = some ch) :
    scoreAnswer st tally a = .ok (applyWeights tally ch.weights) := by
  simp [scoreAnswer, get_question_or_404, hq, hf]

theorem scoreAnswer_error_eq (st : St) (tally : List (String × ℚ)) (a : String × String)
    (e : Err) (h : scoreAnswer st tally a = .error e) :
    e = .notFound "Question not found" ∧ alookup st.questions a.1 = none := by
  cases hx : alookup st.questions a.1 with
  | none =>
    rw [scoreAnswer_eq_error st tally a hx] at h
    exact ⟨(Except.error.inj h).symm, rfl⟩
  | some q =>
    cases hf : q.choices.find? fun c => c.id = a.2 with
    | none => rw [scoreAnswer_eq_skip st tally a q hx hf] at h; cases h
    | some ch => rw [scoreAnswer_eq_apply st tally a q ch hx hf] at h; cases h

theorem foldTally_cons_error (st : St) (a : String × String) (rest : List (String × String))
    (tally : List (String × ℚ)) (e : Err) (h : scoreAnswer st tally a = .error e) :
    foldTally st (a :: rest) tally = .error e := by
  show (match scoreAnswer st tally a with
        | .error e => (.error e : Except Err (List (String × ℚ)))
        | .ok t => foldTally st rest t) = .error e
  rw [h]

theorem foldTally_cons_ok (st : St) (a : String × String) (rest : List (String × String))
    (tally t : List (String × ℚ)) (h : scoreAnswer st tally a = .ok t) :
    foldTally st (a :: rest) tally = foldTally st rest t := by
  show (match scoreAnswer st tally a with
        | .error e => (.error e : Except Err (List (String × ℚ)))
        | .ok t => foldTally st rest t) = foldTally st rest t
  rw [h]

theorem foldTally_all_found (st : St) (answers : List (String × String)) :
    ∀ tally : List (String × ℚ),
      (∀ a ∈ answers, (alookup st.questions a.1).isSome) →
      foldTally st answers tally =
        .ok (tally.map fun p => (p.1, p.2 + totalScore st answers p.1)) := by
  induction answers with
  | nil =>
    intro tally _
    simp [foldTally, totalScore_nil]
  | cons a rest ih =>
    intro tally h
    obtain ⟨q, hq⟩ : ∃ q, alookup st.questions a.1 = some q := by
      have ha := h a (List.mem_cons_self a rest)
      cases hx : alookup st.questions a.1 with
      | none => rw [hx] at ha; cases ha
      | some q => exact ⟨q, rfl⟩
    have hrest : ∀ b ∈ rest, (alookup st.questions b.1).isSome :=
      fun b hb => h b (List.mem_cons_of_mem a hb)
    cases hf : q.choices.find? fun c => c.id = a.2 with
    | none =>
      rw [foldTally_cons_ok st a rest tally tally (scoreAnswer_eq_skip st tally a q hq hf),
        ih tally hrest]
      have hw : ∀ cid, answerWeight st cid a = 0 := by
        intro cid
        simp [answerWeight, answerChoice, hq, hf]
      have hfun : (fun p : String × ℚ => (p.1, p.2 + totalScore st rest p.1))
          = fun p : String × ℚ => (p.1, p.2 + totalScore st (a :: rest) p.1) := by
        funext p
        rw [totalScore_cons, hw, zero_add]
      rw [hfun]
    | some ch =>
      rw [foldTally_cons_ok st a rest tally _ (scoreAnswer_eq_apply st tally a q ch hq hf),
        ih _ hrest, applyWeights_eq, List.map_map]
      have hw : ∀ cid, answerWeight st cid a = sumWeights ch.weights cid := by
        intro cid
        simp [answerWeight, answerChoice, hq, hf]
      have hfun : ((fun p : String × ℚ => (p.1, p.2 + totalScore st rest p.1))
            ∘ fun p : String × ℚ => (p.1, p.2 + sumWeights ch.weights p.1))
          = fun p : String × ℚ => (p.1, p.2 + totalScore st (a :: rest) p.1) := by
        funext p
        simp [Function.comp, totalScore_cons, hw, add_assoc]
      rw [hfun]

theorem foldTally_dangling (st : St) (answers : List (String × String)) :
    ∀ tally : List (String × ℚ),
      (∃ a ∈ answers, alookup st.questions a.1 = none) →
      foldTally st answers tally = .error (.notFound "Question not found") := by
  induction answers with
  | nil => intro tally h; simp at h
  | cons a rest ih =>
    intro tally h
    obtain ⟨b, hb, hnone⟩ := h
    rcases List.mem_cons.mp hb with rfl | hbr
    · exact foldTally_cons_error st b rest tally _ (scoreAnswer_eq_error st tally b hnone)
    · cases hsa : scoreAnswer st tally a with
      | error e =>
        rw [foldTally_cons_error st a rest tally e hsa,
          (scoreAnswer_error_eq st tally a e hsa).1]
      | ok t =>
        rw [foldTally_cons_ok st a rest tally t hsa]
        exact ih t ⟨b, hbr, hnone⟩

/-- Closed form of a successful scoring run: per-character totals over the
catalog, in store order, sorted descending. -/
def canonicalScores (st : St) (answers : List (String × String)) : List ScoreResult :=
  sortScoresDesc (st.characters.map fun p =>
    { character_id := p.1, score := totalScore st answers p.1 })

theorem compute_scores_fold_ok (st : St) (session : Session) (tally : List (String × ℚ))
    (h : foldTally st session.answers (st.characters.map fun p => (p.1, (0 : ℚ))) = .ok tally) :
    compute_scores st session =
      .ok (sortScoresDesc (tally.map fun p => { character_id := p.1, score := p.2 })) := by
  unfold compute_scores
  rw [h]

theorem compute_scores_fold_error (st : St) (session : Session) (e : Err)
    (h : foldTally st session.answers (st.characters.map fun p => (p.1, (0 : ℚ))) = .error e) :
    compute_scores st session = .error e := by
  unfold compute_scores
  rw [h]

theorem compute_scores_all_found (st : St) (session : Session)
    (h : ∀ a ∈ session.answers, (alookup st.questions a.1).isSome) :
    compute_scores st session = .ok (canonicalScores st session.answers) := by
  rw [compute_scores_fold_ok st session _ (foldTally_all_found st session.answers _ h)]
  unfold canonicalScores
  rw [List.map_map, List.map_map]
  have hfun : (((fun p : String × ℚ => ({ character_id := p.1, score := p.2 } : ScoreResult))
        ∘ fun p : String × ℚ => (p.1, p.2 + totalScore st session.answers p.1))
        ∘ fun p : String × Character => (p.1, (0 : ℚ)))
      = fun p : String × Character =>
          ({ character_id := p.1, score := totalScore st session.answers p.1 } : ScoreResult) := by
    funext p
    simp [Function.comp]
  rw [hfun]

theorem compute_scores_dangling (st : St) (session : Session)
    (h : ∃ a ∈ session.answers, alookup st.questions a.1 = none) :
    compute_scores st session = .error (.notFound "Question not found") :=
  compute_scores_fold_error st session _ (foldTally_dangling st session.answers _ h)

theorem compute_scores_ok_elim (st : St) (session : Session) (results : List ScoreResult)
    (h : compute_scores st session = .ok results) :
    (∀ a ∈ session.answers, (alookup st.questions a.1).isSome)
    ∧ results = canonicalScores st session.answers := by
  by_cases hd : ∃ a ∈ session.answers, alookup st.questions a.1 = none
  · rw [compute_scores_dangling st session hd] at h
    cases h
  · push_neg at hd
    have hall : ∀ a ∈ session.answers, (alookup st.questions a.1).isSome := by
      intro a ha
      cases hx : alookup st.questions a.1 with
      | none => exact absurd hx (hd a ha)
      | some q => simp
    rw [compute_scores_all_found st session hall] at h
    exact ⟨hall, (Except.ok.inj h).symm⟩

theorem compute_scores_error_eq (st : St) (session : Session) (e : Err)
    (h : compute_scores st session = .error e) : e = .notFound "Question not found" := by
  by_cases hd : ∃ a ∈ session.answers, alookup st.questions a.1 = none
  · rw [compute_scores_dangling st session hd] at h
    exact (Except.error.inj h).symm
  · push_neg at hd
    have hall : ∀ a ∈ session.answers, (alookup st.questions a.1).isSome := by
      intro a ha
      cases hx : alookup st.questions a.1 with
      | none => exact absurd hx (hd a ha)
      | some q => simp
    rw [compute_scores_all_found st session hall] at h
    cases h

theorem answerWeight_eq_zero (st : St) (cid : String) (a : String × String)
    (h : answerChoice st a = none) : answerWeight st cid a = 0 := by
  simp [answerWeight, h]

theorem answerWeight_eq_sum (st : St) (cid : String) (a : String × String) (ch : Choice)
    (h : answerChoice st a = some ch) : answerWeight st cid a = sumWeights ch.weights cid := by
  simp [answerWeight, h]

theorem totalScore_filter (st : St) (answers : List (String × String)) (cid : String) :
    totalScore st (answers.filter fun a => (answerChoice st a).isSome) cid
      = totalScore st answers cid := by
  induction answers with
  | nil => rfl
  | cons a rest ih =>
    by_cases hc : (answerChoice st a).isSome
    · rw [List.filter_cons_of_pos (by simpa using hc), totalScore_cons, totalScore_cons, ih]
    · rw [List.filter_cons_of_neg (by simpa using hc), totalScore_cons, ih]
      have hz : answerWeight st cid a = 0 := by
        cases hx : answerChoice st a with
        | none => exact answerWeight_eq_zero st cid a hx
        | some ch => rw [hx] at hc; simp at hc
      rw [hz, zero_add]

theorem canonicalScores_congr_total (st : St) (a₁ a₂ : List (String × String))
    (h : ∀ cid, totalScore st a₁ cid = totalScore st a₂ cid) :
    canonicalScores st a₁ = canonicalScores st a₂ := by
  unfold canonicalScores
  have hfun : (fun p : String × Character =>
        ({ character_id := p.1, score := totalScore st a₁ p.1 } : ScoreResult))
      = fun p : String × Character =>
        ({ character_id := p.1, score := totalScore st a₂ p.1 } : ScoreResult) := by
    funext p
    rw [h]
  rw [hfun]

/-- C1: for every catalog state and every session, a successful `compute_scores`
run returns exactly one (character_id, score) pair per character currently in
the catalog and no others, each character's score being the plain sum of that
character's weights over the session's answered choices (0 when never
weighted), and the list is sorted by score descending with no
normalisation. -/
theorem claim_C1 (st : St) (session : Session) (results : List ScoreResult)
    (h : compute_scores st session = .ok results) :
    (results.map fun r => r.character_id).Perm (st.characters.map Prod.fst)
    ∧ (∀ r ∈ results, r.score = totalScore st session.answers r.character_id)
    ∧ results.Pairwise fun a b => b.score ≤ a.score := by
  obtain ⟨hall, rfl⟩ := compute_scores_ok_elim st session results h
  refine ⟨?_, ?_, sortScoresDesc_sorted _⟩
  · unfold canonicalScores
    have hp := (sortScoresDesc_perm (st.characters.map fun p =>
      ({ character_id := p.1, score := totalScore st session.answers p.1 } : ScoreResult))).map
      (fun r : ScoreResult => r.character_id)
    rw [List.map_map] at hp
    exact hp
  · intro r hr
    unfold canonicalScores at hr
    have hr' := (sortScoresDesc_perm (st.characters.map fun p =>
      ({ character_id := p.1, score := totalScore st session.answers p.1 } : ScoreResult))).mem_iff.mp hr
    obtain ⟨p, _, rfl⟩ := List.mem_map.mp hr'
    rfl

/-- C1 witness: the seeded catalog with answers q1/c1 and q2/c6 scores
luke 1, leia 1, vader 0, in descending order. -/
theorem claim_C1_witness :
    (([{ character_id := "luke", score := 1 }, { character_id := "leia", score := 1 },
       { character_id := "vader", score := 0 }] : List ScoreResult).map
        fun r => r.character_id).Perm ((baseSt [] []).characters.map Prod.fst)
    ∧ (∀ r ∈ ([{ character_id := "luke", score := 1 }, { character_id := "leia", score := 1 },
       { character_id := "vader", score := 0 }] : List ScoreResult),
        r.score = totalScore (baseSt [] [])
          (mkSession [("q1", "c1"), ("q2", "c6")] (some "default") []).answers r.character_id)
    ∧ ([{ character_id := "luke", score := 1 }, { character_id := "leia", score := 1 },
       { character_id := "vader", score := 0 }] : List ScoreResult).Pairwise
        fun a b => b.score ≤ a.score :=
  claim_C1 (baseSt [] []) (mkSession [("q1", "c1"), ("q2", "c6")] (some "default") [])
    [{ character_id := "luke", score := 1 }, { character_id := "leia", score := 1 },
     { character_id := "vader", score := 0 }]
    (by with_unfolding_all decide)

/-- C2: during scoring, an answer whose question id is absent from the question
store makes the whole computation fail with NotFound, while an answer whose
question exists but whose choice id is no longer among the question's choices
is skipped silently and contributes nothing (dropping such answers leaves the
result unchanged) — the two dangling cases are asymmetric. -/
theorem claim_C2 (st : St) (session : Session) :
    ((∃ a ∈ session.answers, alookup st.questions a.1 = none) →
        compute_scores st session = .error (.notFound "Question not found"))
    ∧ ((∀ a ∈ session.answers, (alookup st.questions a.1).isSome) →
        (∃ results, compute_scores st session = .ok results)
        ∧ ∀ s₂ : Session,
            s₂.answers = session.answers.filter (fun a => (answerChoice st a).isSome) →
            compute_scores st s₂ = compute_scores st session) := by
  constructor
  · exact fun hd => compute_scores_dangling st session hd
  · intro hall
    refine ⟨⟨canonicalScores st session.answers, compute_scores_all_found st session hall⟩, ?_⟩
    intro s₂ hs₂
    have hall₂ : ∀ a ∈ s₂.answers, (alookup st.questions a.1).isSome := by
      intro a ha
      rw [hs₂] at ha
      exact hall a (List.mem_of_mem_filter ha)
    rw [compute_scores_all_found st s₂ hall₂, compute_scores_all_found st session hall, hs₂]
    exact congrArg Except.ok
      (canonicalScores_congr_total st _ _ (totalScore_filter st session.answers))

/-- C2 witness: a dangling question id is a hard NotFound on the seeded
catalog, while a dangling choice id scores identically to no answer at all. -/
theorem claim_C2_witness :
    compute_scores (baseSt [] []) (mkSession [("qX", "c1")] none [])
      = .error (.notFound "Question not found")
    ∧ compute_scores (baseSt [] []) (mkSession [] none [])
        = compute_scores (baseSt [] []) (mkSession [("q1", "cX")] none []) :=
  ⟨(claim_C2 (baseSt [] []) (mkSession [("qX", "c1")] none [])).1
      ⟨("qX", "c1"), by decide, by decide⟩,
   ((claim_C2 (baseSt [] []) (mkSession [("q1", "cX")] none [])).2 (by decide)).2
      (mkSession [] none []) (by decide)⟩

/-- C5: the ranking produced by `compute_scores` is a pure function of the
catalog and the set of answers: permuting the iteration order of the answers
mapping (and hence re-running on the same data) yields the identical result,
including the ordering among tied scores. -/
theorem claim_C5 (st : St) (s₁ s₂ : Session) (hperm : s₁.answers.Perm s₂.answers) :
    compute_scores st s₁ = compute_scores st s₂ := by
  by_cases hd : ∃ a ∈ s₁.answers, alookup st.questions a.1 = none
  · obtain ⟨a, ha, h0⟩ := hd
    rw [compute_scores_dangling st s₁ ⟨a, ha, h0⟩,
      compute_scores_dangling st s₂ ⟨a, hperm.mem_iff.mp ha, h0⟩]
  · push_neg at hd
    have hall₁ : ∀ a ∈ s₁.answers, (alookup st.questions a.1).isSome := by
      intro a ha
      cases hx : alookup st.questions a.1 with
      | none => exact absurd hx (hd a ha)
      | some q => simp
    have hall₂ : ∀ a ∈ s₂.answers, (alookup st.questions a.1).isSome := fun a ha =>
      hall₁ a (hperm.mem_iff.mpr ha)
    rw [compute_scores_all_found st s₁ hall₁, compute_scores_all_found st s₂ hall₂]
    refine congrArg Except.ok (canonicalScores_congr_total st _ _ ?_)
    intro cid
    exact (hperm.map (answerWeight st cid)).sum_eq

/-- C5 witness: swapping the two seeded answers leaves the ranking unchanged. -/
theorem claim_C5_witness :
    compute_scores (baseSt [] []) (mkSession [("q1", "c1"), ("q2", "c6")] none [])
      = compute_scores (baseSt [] []) (mkSession [("q2", "c6"), ("q1", "c1")] none []) :=
  claim_C5 (baseSt [] []) (mkSession [("q1", "c1"), ("q2", "c6")] none [])
    (mkSession [("q2", "c6"), ("q1", "c1")] none []) (by decide)

/-! Step equations for the session gate and `submit_answer`. -/

theorem get_session_absent (st : St) (now : Nat) (sid : String)
    (h : alookup st.sessions sid = none) :
    get_session_or_404 st now sid = .error (.notFound "Session not found") := by
  simp [get_session_or_404, h]

theorem get_session_expired (st : St) (now : Nat) (sid : String) (s : Session)
    (h : alookup st.sessions sid = some s) (ht : now > s.expires_at) :
    get_session_or_404 st now sid = .error (.gone "Session expired") := by
  simp [get_session_or_404, h, ht]

theorem get_session_live (st : St) (now : Nat) (sid : String) (s : Session)
    (h : alookup st.sessions sid = some s) (ht : ¬ now > s.expires_at) :
    get_session_or_404 st now sid = .ok s := by
  simp [get_session_or_404, h, ht]

theorem get_session_ok_elim (st : St) (now : Nat) (sid : String) (s : Session)
    (h : get_session_or_404 st now sid = .ok s) :
    alookup st.sessions sid = some s ∧ ¬ now > s.expires_at := by
  cases hx : alookup st.sessions sid with
  | none => rw [get_session_absent st now sid hx] at h; cases h
  | some s' =>
    by_cases ht : now > s'.expires_at
    · rw [get_session_expired st now sid s' hx ht] at h; cases h
    · rw [get_session_live st now sid s' hx ht] at h
      have hss : s' = s := Except.ok.inj h
      subst hss
      exact ⟨rfl, ht⟩

theorem get_session_error_eq (st : St) (now : Nat) (sid : String) (e : Err)
    (h : get_session_or_404 st now sid = .error e) :
    e = .notFound "Session not found" ∨ e = .gone "Session expired" := by
  cases hx : alookup st.sessions sid with
  | none =>
    rw [get_session_absent st now sid hx] at h
    exact .inl (Except.error.inj h).symm
  | some s =>
    by_cases ht : now > s.expires_at
    · rw [get_session_expired st now sid s hx ht] at h
      exact .inr (Except.error.inj h).symm
    · rw [get_session_live st now sid s hx ht] at h
      cases h

theorem submit_answer_session_error (st : St) (now : Nat) (sid qz qid cid : String) (e : Err)
    (h : get_session_or_404 st now sid = .error e) :
    submit_answer st now sid qz qid cid = (st, .error e) := by
  unfold submit_answer
  rw [h]

theorem submit_answer_quiz_error (st : St) (now : Nat) (sid qz qid cid : String) (s : Session)
    (hs : get_session_or_404 st now sid = .ok s) (hqz : alookup st.quizzes qz = none) :
    submit_answer st now sid qz qid cid = (st, .error (.notFound "Quiz not found")) := by
  unfold submit_answer
  rw [hs]
  have h2 : get_quiz_or_404 st qz = .error (.notFound "Quiz not found") := by
    simp [get_quiz_or_404, hqz]
  rw [h2]

theorem submit_answer_question_error (st : St) (now : Nat) (sid qz qid cid : String)
    (s : Session) (qzv : Quiz) (hs : get_session_or_404 st now sid = .ok s)
    (hqz : alookup st.quizzes qz = some qzv) (hqn : alookup st.questions qid = none) :
    submit_answer st now sid qz qid cid = (st, .error (.notFound "Question not found")) := by
  unfold submit_answer
  rw [hs]
  have h2 : get_quiz_or_404 st qz = .ok qzv := by simp [get_quiz_or_404, hqz]
  rw [h2]
  have h3 : get_question_or_404 st qid = .error (.notFound "Question not found") := by
    simp [get_question_or_404, hqn]
  rw [h3]

theorem submit_answer_choice_error (st : St) (now : Nat) (sid qz qid cid : String)
    (s : Session) (qzv : Quiz) (q : Question) (hs : get_session_or_404 st now sid = .ok s)
    (hqz : alookup st.quizzes qz = some qzv) (hqn : alookup st.questions qid = some q)
    (hc : ¬ (q.choices.map Choice.id).contains cid) :
    submit_answer st now sid qz qid cid = (st, .error (.badRequest "Invalid choice for question")) := by
  have h2 : get_quiz_or_404 st qz = .ok qzv := by simp [get_quiz_or_404, hqz]
  have h3 : get_question_or_404 st qid = .ok q := by simp [get_question_or_404, hqn]
  simp only [submit_answer, hs, h2, h3]
  rw [if_neg hc]

/-- The session record written back by a successful `submit_answer`. -/
def answeredSession (s : Session) (quiz_id question_id choice_id : String) : Session :=
  { s with
    answers := setKey s.answers question_id choice_id
    quiz_id := some quiz_id
    scored := false }

theorem submit_answer_ok_eq (st : St) (now : Nat) (sid qz qid cid : String)
    (s : Session) (qzv : Quiz) (q : Question) (hs : get_session_or_404 st now sid = .ok s)
    (hqz : alookup st.quizzes qz = some qzv) (hqn : alookup st.questions qid = some q)
    (hc : (q.choices.map Choice.id).contains cid) :
    submit_answer st now sid qz qid cid =
      ({ st with sessions := setKey st.sessions sid (answeredSession s qz qid cid) }, .ok ()) := by
  have h2 : get_quiz_or_404 st qz = .ok qzv := by simp [get_quiz_or_404, hqz]
  have h3 : get_question_or_404 st qid = .ok q := by simp [get_question_or_404, hqn]
  simp only [submit_answer, hs, h2, h3]
  rw [if_pos hc]
  rfl

theorem submit_answer_ok_elim (st : St) (now : Nat) (sid qz qid cid : String)
    (h : (submit_answer st now sid qz qid cid).2 = .ok ()) :
    ∃ s q, get_session_or_404 st now sid = .ok s
      ∧ (alookup st.quizzes qz).isSome
      ∧ alookup st.questions qid = some q
      ∧ (q.choices.map Choice.id).contains cid
      ∧ submit_answer st now sid qz qid cid =
          ({ st with sessions := setKey st.sessions sid (answeredSession s qz qid cid) },
           .ok ()) := by
  cases hgs : get_session_or_404 st now sid with
  | error e =>
    rw [submit_answer_session_error st now sid qz qid cid e hgs] at h
    cases h
  | ok s =>
    cases hqz : alookup st.quizzes qz with
    | none =>
      rw [submit_answer_quiz_error st now sid qz qid cid s hgs hqz] at h
      cases h
    | some qzv =>
      cases hqn : alookup st.questions qid with
      | none =>
        rw [submit_answer_question_error st now sid qz qid cid s qzv hgs hqz hqn] at h
        cases h
      | some q =>
        by_cases hc : (q.choices.map Choice.id).contains cid
        · exact ⟨s, q, rfl, by simp, rfl, hc,
            submit_answer_ok_eq st now sid qz qid cid s qzv q hgs hqz hqn hc⟩
        · rw [submit_answer_choice_error st now sid qz qid cid s qzv q hgs hqz hqn hc] at h
          cases h

theorem find_choice_of_contains (cs : List Choice) (cid : String)
    (h : (cs.map Choice.id).contains cid) :
    ∃ ch, cs.find? (fun c => c.id = cid) = some ch ∧ ch.id = cid := by
  have hmem : cid ∈ cs.map Choice.id := by simpa using h
  obtain ⟨c, hc, hcid⟩ := List.mem_map.mp hmem
  have hsome : (cs.find? fun c => c.id = cid).isSome := by
    rw [List.find?_isSome]
    exact ⟨c, hc, by simp [hcid]⟩
  obtain ⟨ch, hch⟩ := Option.isSome_iff_exists.mp hsome
  refine ⟨ch, hch, ?_⟩
  have hp := List.find?_some hch
  simpa using hp

theorem compute_scores_score_eq (st : St) (session : Session) (results : List ScoreResult)
    (h : compute_scores st session = .ok results) :
    ∀ r ∈ results, r.score = totalScore st session.answers r.character_id := by
  obtain ⟨-, rfl⟩ := compute_scores_ok_elim st session results h
  intro r hr
  unfold canonicalScores at hr
  have hr' := (sortScoresDesc_perm _).mem_iff.mp hr
  obtain ⟨p, -, rfl⟩ := List.mem_map.mp hr'
  rfl

theorem compute_scores_perm_keys (st : St) (session : Session) (results : List ScoreResult)
    (h : compute_scores st session = .ok results) :
    (results.map fun r => r.character_id).Perm (st.characters.map Prod.fst) := by
  obtain ⟨-, rfl⟩ := compute_scores_ok_elim st session results h
  unfold canonicalScores
  have hp := (sortScoresDesc_perm (st.characters.map fun p =>
    ({ character_id := p.1, score := totalScore st session.answers p.1 } : ScoreResult))).map
    (fun r : ScoreResult => r.character_id)
  rw [List.map_map] at hp
  exact hp

/-! Step equations for `resolveTopCharacter` and `compute_match`. -/

theorem resolveTopCharacter_zero (st : St) (t : ScoreResult) (h : ¬ 0 < t.score) :
    resolveTopCharacter st (some t) = .ok none := by
  simp [resolveTopCharacter, h]

theorem resolveTopCharacter_pos_ok (st : St) (t : ScoreResult) (c : Character)
    (h : 0 < t.score) (hc : alookup st.characters t.character_id = some c) :
    resolveTopCharacter st (some t) = .ok (some c) := by
  simp [resolveTopCharacter, h, get_character_or_404, hc]

theorem resolveTopCharacter_pos_error (st : St) (t : ScoreResult)
    (h : 0 < t.score) (hc : alookup st.characters t.character_id = none) :
    resolveTopCharacter st (some t) = .error (.notFound "Character not found") := by
  simp [resolveTopCharacter, h, get_character_or_404, hc]

theorem resolveTopCharacter_error_eq (st : St) (top : Option ScoreResult) (e : Err)
    (h : resolveTopCharacter st top = .error e) :
    e = .notFound "Character not found"
    ∧ ∃ t, top = some t ∧ 0 < t.score ∧ alookup st.characters t.character_id = none := by
  cases top with
  | none => cases h
  | some t =>
    by_cases ht : 0 < t.score
    · cases hc : alookup st.characters t.character_id with
      | none =>
        rw [resolveTopCharacter_pos_error st t ht hc] at h
        exact ⟨(Except.error.inj h).symm, t, rfl, ht, hc⟩
      | some c =>
        rw [resolveTopCharacter_pos_ok st t c ht hc] at h
        cases h
    · rw [resolveTopCharacter_zero st t ht] at h
      cases h

theorem compute_match_session_error (st : St) (now : Nat) (sid : String) (e : Err)
    (h : get_session_or_404 st now sid = .error e) :
    compute_match st now sid = (st, .error e) := by
  unfold compute_match
  rw [h]

theorem compute_match_no_quiz (st : St) (now : Nat) (sid : String) (s : Session)
    (hs : get_session_or_404 st now sid = .ok s) (hq : strFalsy s.quiz_id = true) :
    compute_match st now sid = (st, .error (.badRequest "No quiz selected in session")) := by
  simp [compute_match, hs, hq]

theorem compute_match_scores_error (st : St) (now : Nat) (sid : String) (s : Session) (e : Err)
    (hs : get_session_or_404 st now sid = .ok s) (hq : strFalsy s.quiz_id = false)
    (hsc : compute_scores st s = .error e) :
    compute_match st now sid = (st, .error e) := by
  simp [compute_match, hs, hq, hsc]

theorem compute_match_char_error (st : St) (now : Nat) (sid : String) (s : Session)
    (scores : List ScoreResult) (e : Err)
    (hs : get_session_or_404 st now sid = .ok s) (hq : strFalsy s.quiz_id = false)
    (hsc : compute_scores st s = .ok scores)
    (hrc : resolveTopCharacter st scores.head? = .error e) :
    compute_match st now sid = (st, .error e) := by
  simp [compute_match, hs, hq, hsc, hrc]

theorem compute_match_ok_eq (st : St) (now : Nat) (sid : String) (s : Session)
    (scores : List ScoreResult) (character : Option Character)
    (hs : get_session_or_404 st now sid = .ok s) (hq : strFalsy s.quiz_id = false)
    (hsc : compute_scores st s = .ok scores)
    (hrc : resolveTopCharacter st scores.head? = .ok character) :
    compute_match st now sid =
      finishMatch st sid (s.quiz_id.getD "") s scores.head? scores character := by
  simp [compute_match, hs, hq, hsc, hrc]

theorem compute_match_ok_elim (st : St) (now : Nat) (sid : String) (m : MatchResult)
    (h : (compute_match st now sid).2 = .ok m) :
    ∃ s scores,
      get_session_or_404 st now sid = .ok s
      ∧ strFalsy s.quiz_id = false
      ∧ compute_scores st s = .ok scores
      ∧ resolveTopCharacter st scores.head? = .ok m.character
      ∧ m.top_match = scores.head?
      ∧ m.scores = scores
      ∧ m.session_id = sid
      ∧ m.portrait_url = none := by
  cases hgs : get_session_or_404 st now sid with
  | error e =>
    rw [compute_match_session_error st now sid e hgs] at h
    cases h
  | ok s =>
    cases hq : strFalsy s.quiz_id with
    | true =>
      rw [compute_match_no_quiz st now sid s hgs hq] at h
      cases h
    | false =>
      cases hsc : compute_scores st s with
      | error e =>
        rw [compute_match_scores_error st now sid s e hgs hq hsc] at h
        cases h
      | ok scores =>
        cases hrc : resolveTopCharacter st scores.head? with
        | error e =>
          rw [compute_match_char_error st now sid s scores e hgs hq hsc hrc] at h
          cases h
        | ok character =>
          rw [compute_match_ok_eq st now sid s scores character hgs hq hsc hrc] at h
          have hm : m =
              { session_id := sid
                quiz_id := s.quiz_id.getD ""
                top_match := scores.head?
                scores := scores
                character := character
                portrait_url := none } := (Except.ok.inj h).symm
          subst hm
          exact ⟨s, scores, rfl, hq, hsc, hrc, rfl, rfl, rfl, rfl⟩

/-- C4: when `compute_match` succeeds, an empty catalog yields an empty ranked
list with `top_match` and `character` absent; a top score of exactly 0 yields
`top_match` present but `character` absent; and the character detail is
resolved and attached exactly when the top score is strictly positive. -/
theorem claim_C4 (st : St) (now : Nat) (sid : String) (m : MatchResult)
    (h : (compute_match st now sid).2 = .ok m) :
    (st.characters = [] → m.scores = [] ∧ m.top_match = none ∧ m.character = none)
    ∧ (∀ t, m.top_match = some t → t.score = 0 → m.character = none)
    ∧ (∀ t, m.top_match = some t → 0 < t.score →
        ∃ c, alookup st.characters t.character_id = some c ∧ m.character = some c) := by
  obtain ⟨s, scores, hgs, hq, hsc, hrc, htop, hscs, -, -⟩ := compute_match_ok_elim st now sid m h
  refine ⟨?_, ?_, ?_⟩
  · intro hempty
    obtain ⟨-, hcan⟩ := compute_scores_ok_elim st s scores hsc
    have hnil : scores = [] := by
      rw [hcan]
      unfold canonicalScores
      rw [hempty]
      rfl
    subst hnil
    refine ⟨hscs, by rw [htop]; rfl, ?_⟩
    have hres : resolveTopCharacter st none = .ok m.character := hrc
    exact (Except.ok.inj hres).symm
  · intro t ht h0
    rw [htop] at ht
    rw [ht] at hrc
    rw [resolveTopCharacter_zero st t (by rw [h0]; exact lt_irrefl 0)] at hrc
    exact (Except.ok.inj hrc).symm
  · intro t ht hpos
    rw [htop] at ht
    rw [ht] at hrc
    cases hc : alookup st.characters t.character_id with
    | none =>
      rw [resolveTopCharacter_pos_error st t hpos hc] at hrc
      cases hrc
    | some c =>
      rw [resolveTopCharacter_pos_ok st t c hpos hc] at hrc
      exact ⟨c, rfl, (Except.ok.inj hrc).symm⟩

/-- The seeded catalog emptied of characters, with one live session bound to
the default quiz, for the C4 boundary witness. -/
def stEmptyCatalog : St :=
  { quizzes := seedQuizzes, questions := seedQuestions, characters := [],
    sessions := [("s1", mkSession [] (some "default") [])], results := [] }

/-- The match produced for the empty catalog in the C4 witness state. -/
def c4EmptyMatch : MatchResult :=
  { session_id := "s1"
    quiz_id := "default"
    top_match := none
    scores := []
    character := none
    portrait_url := none }

/-- C4 witness: the empty catalog produces a match with an empty ranked list,
no top match and no resolved character. -/
theorem claim_C4_witness :
    c4EmptyMatch.scores = [] ∧ c4EmptyMatch.top_match = none
      ∧ c4EmptyMatch.character = none :=
  (claim_C4 stEmptyCatalog 0 "s1" c4EmptyMatch (by with_unfolding_all decide)).1 rfl

/-- C9: every character id in a successful ranking originates from the
catalog's key set, so the NotFound branch of the character lookup inside
`compute_match` is unreachable: no call returns 404 "Character not found". -/
theorem claim_C9 :
    (∀ (st : St) (session : Session) (results : List ScoreResult),
        compute_scores st session = .ok results →
        ∀ r ∈ results, r.character_id ∈ st.characters.map Prod.fst)
    ∧ ∀ (st : St) (now : Nat) (sid : String),
        (compute_match st now sid).2 ≠ .error (.notFound "Character not found") := by
  constructor
  · intro st session results h r hr
    exact (compute_scores_perm_keys st session results h).mem_iff.mp
      (List.mem_map_of_mem _ hr)
  · intro st now sid h
    cases hgs : get_session_or_404 st now sid with
    | error e =>
      rw [compute_match_session_error st now sid e hgs] at h
      rcases get_session_error_eq st now sid e hgs with rfl | rfl
      · simp at h
      · simp at h
    | ok s =>
      cases hq : strFalsy s.quiz_id with
      | true =>
        rw [compute_match_no_quiz st now sid s hgs hq] at h
        simp at h
      | false =>
        cases hsc : compute_scores st s with
        | error e =>
          rw [compute_match_scores_error st now sid s e hgs hq hsc] at h
          rw [compute_scores_error_eq st s e hsc] at h
          simp at h
        | ok scores =>
          cases hrc : resolveTopCharacter st scores.head? with
          | error e =>
            obtain ⟨-, t, htop, -, hnone⟩ := resolveTopCharacter_error_eq st _ e hrc
            have htmem : t ∈ scores := List.mem_of_mem_head? htop
            have hkey : t.character_id ∈ st.characters.map Prod.fst :=
              (compute_scores_perm_keys st s scores hsc).mem_iff.mp
                (List.mem_map_of_mem _ htmem)
            obtain ⟨c, hc⟩ := alookup_isSome_of_mem st.characters t.character_id hkey
            rw [hc] at hnone
            cases hnone
          | ok character =>
            rw [compute_match_ok_eq st now sid s scores character hgs hq hsc hrc] at h
            simp [finishMatch] at h

/-- C9 witness: on the seeded catalog, the top scorer of a concrete run is a
key of the character store. -/
theorem claim_C9_witness :
    ("luke" : String) ∈ (baseSt [] []).characters.map Prod.fst :=
  claim_C9.1 (baseSt [] []) (mkSession [("q1", "c1")] none [])
    [{ character_id := "luke", score := 1 }, { character_id := "vader", score := 0 },
     { character_id := "leia", score := 0 }]
    (by with_unfolding_all decide) { character_id := "luke", score := 1 }
    (by with_unfolding_all decide)

theorem upload_selfie_session_error (st : St) (now : Nat) (sid ct fn : String) (e : Err)
    (h : get_session_or_404 st now sid = .error e) :
    upload_selfie st now sid ct fn = (st, .error e) := by
  unfold upload_selfie
  rw [h]

theorem generate_portrait_session_error (st : St) (now : Nat) (sid : String)
    (blobExists : String → Bool) (e : Err) (h : get_session_or_404 st now sid = .error e) :
    generate_portrait st now sid blobExists = (st, .error e) := by
  unfold generate_portrait
  rw [h]

theorem get_result_session_error (st : St) (now : Nat) (sid : String) (e : Err)
    (h : get_session_or_404 st now sid = .error e) :
    get_result st now sid = .error e := by
  unfold get_result
  rw [h]

/-- C6: for a stored session whose `expires_at` lies strictly in the past,
every lookup-dependent operation fails with 410 Expired — never NotFound —
and leaves every store untouched (the expiry check is read-time only); a
session id absent from the store fails with 404 NotFound. -/
theorem claim_C6 (st : St) (now : Nat) (sid qz qid cid ct fn : String)
    (blobExists : String → Bool) :
    (∀ s, alookup st.sessions sid = some s → now > s.expires_at →
      (submit_answer st now sid qz qid cid).2 = .error (.gone "Session expired")
      ∧ (compute_match st now sid).2 = .error (.gone "Session expired")
      ∧ (upload_selfie st now sid ct fn).2 = .error (.gone "Session expired")
      ∧ (generate_portrait st now sid blobExists).2 = .error (.gone "Session expired")
      ∧ get_result st now sid = .error (.gone "Session expired")
      ∧ (submit_answer st now sid qz qid cid).1 = st
      ∧ (compute_match st now sid).1 = st
      ∧ (upload_selfie st now sid ct fn).1 = st
      ∧ (generate_portrait st now sid blobExists).1 = st)
    ∧ (alookup st.sessions sid = none →
      (submit_answer st now sid qz qid cid).2 = .error (.notFound "Session not found")
      ∧ (compute_match st now sid).2 = .error (.notFound "Session not found")
      ∧ (upload_selfie st now sid ct fn).2 = .error (.notFound "Session not found")
      ∧ (generate_portrait st now sid blobExists).2 = .error (.notFound "Session not found")
      ∧ get_result st now sid = .error (.notFound "Session not found")) := by
  constructor
  · intro s hs ht
    have hg := get_session_expired st now sid s hs ht
    have h1 := submit_answer_session_error st now sid qz qid cid _ hg
    have h2 := compute_match_session_error st now sid _ hg
    have h3 := upload_selfie_session_error st now sid ct fn _ hg
    have h4 := generate_portrait_session_error st now sid blobExists _ hg
    have h5 := get_result_session_error st now sid _ hg
    exact ⟨by rw [h1], by rw [h2], by rw [h3], by rw [h4], h5,
      by rw [h1], by rw [h2], by rw [h3], by rw [h4]⟩
  · intro hn
    have hg := get_session_absent st now sid hn
    have h1 := submit_answer_session_error st now sid qz qid cid _ hg
    have h2 := compute_match_session_error st now sid _ hg
    have h3 := upload_selfie_session_error st now sid ct fn _ hg
    have h4 := generate_portrait_session_error st now sid blobExists _ hg
    have h5 := get_result_session_error st now sid _ hg
    exact ⟨by rw [h1], by rw [h2], by rw [h3], by rw [h4], h5⟩

/-- A session stored under id s1 that expired at instant 5. -/
def expiredSession : Session :=
  { id := "s1"
    created_at := 0
    expires_at := 5
    answers := []
    uploads := []
    quiz_id := none
    scored := false }

/-- C6 witness: at instant 10 the expired session draws 410 on submit and on
result fetch, while an unknown session id draws 404 on match computation. -/
theorem claim_C6_witness :
    (submit_answer (baseSt [("s1", expiredSession)] []) 10 "s1" "default" "q1" "c1").2
      = .error (.gone "Session expired")
    ∧ get_result (baseSt [("s1", expiredSession)] []) 10 "s1"
      = .error (.gone "Session expired")
    ∧ (compute_match (baseSt [("s1", expiredSession)] []) 10 "zz").2
      = .error (.notFound "Session not found") :=
  ⟨((claim_C6 (baseSt [("s1", expiredSession)] []) 10 "s1" "default" "q1" "c1"
      "image/png" "f.png" (fun _ => true)).1 expiredSession (by decide) (by decide)).1,
   ((claim_C6 (baseSt [("s1", expiredSession)] []) 10 "s1" "default" "q1" "c1"
      "image/png" "f.png" (fun _ => true)).1 expiredSession (by decide)
      (by decide)).2.2.2.2.1,
   ((claim_C6 (baseSt [("s1", expiredSession)] []) 10 "zz" "default" "q1" "c1"
      "image/png" "f.png" (fun _ => true)).2 (by decide)).2.1⟩

/-- C10: `submit_answer` is atomic on error: whichever of the validations
fails (session absent or expired, quiz absent, question absent, choice not in
the question's choice set), no store is mutated — the whole store state, and
in particular the stored session record with its answers, quiz binding and
scored flag, is exactly as before the call — and the error is one of the five
validation errors. -/
theorem claim_C10 (st : St) (now : Nat) (sid qz qid cid : String) (e : Err)
    (h : (submit_answer st now sid qz qid cid).2 = .error e) :
    (submit_answer st now sid qz qid cid).1 = st
    ∧ (∀ s, alookup st.sessions sid = some s →
        alookup (submit_answer st now sid qz qid cid).1.sessions sid = some s)
    ∧ (e = .notFound "Session not found" ∨ e = .gone "Session expired"
       ∨ e = .notFound "Quiz not found" ∨ e = .notFound "Question not found"
       ∨ e = .badRequest "Invalid choice for question") := by
  cases hgs : get_session_or_404 st now sid with
  | error e' =>
    have heq := submit_answer_session_error st now sid qz qid cid e' hgs
    rw [heq] at h
    have he : e' = e := Except.error.inj h
    subst he
    refine ⟨by rw [heq], fun s hs => by rw [heq]; exact hs, ?_⟩
    rcases get_session_error_eq st now sid e' hgs with rfl | rfl
    · exact .inl rfl
    · exact .inr (.inl rfl)
  | ok s0 =>
    cases hqz : alookup st.quizzes qz with
    | none =>
      have heq := submit_answer_quiz_error st now sid qz qid cid s0 hgs hqz
      rw [heq] at h
      have he := Except.error.inj h
      subst he
      exact ⟨by rw [heq], fun s hs => by rw [heq]; exact hs, .inr (.inr (.inl rfl))⟩
    | some qzv =>
      cases hqn : alookup st.questions qid with
      | none =>
        have heq := submit_answer_question_error st now sid qz qid cid s0 qzv hgs hqz hqn
        rw [heq] at h
        have he := Except.error.inj h
        subst he
        exact ⟨by rw [heq], fun s hs => by rw [heq]; exact hs, .inr (.inr (.inr (.inl rfl)))⟩
      | some q =>
        by_cases hc : (q.choices.map Choice.id).contains cid
        · have heq := submit_answer_ok_eq st now sid qz qid cid s0 qzv q hgs hqz hqn hc
          rw [heq] at h
          cases h
        · have heq := submit_answer_choice_error st now sid qz qid cid s0 qzv q hgs hqz hqn hc
          rw [heq] at h
          have he := Except.error.inj h
          subst he
          exact ⟨by rw [heq], fun s hs => by rw [heq]; exact hs,
            .inr (.inr (.inr (.inr rfl)))⟩

/-- C10 witness: submitting a choice id that is not among q1's choices fails
and leaves the store exactly as it was. -/
theorem claim_C10_witness :
    (submit_answer (baseSt [("s1", mkSession [] none [])] []) 0 "s1" "default" "q1" "c9").1
      = baseSt [("s1", mkSession [] none [])] [] :=
  (claim_C10 (baseSt [("s1", mkSession [] none [])] []) 0 "s1" "default" "q1" "c9"
    (.badRequest "Invalid choice for question") (by with_unfolding_all decide)).1

/-- The stored `RESULT_STORE` entry for a session (empty defaults when the key
is absent), as read by `generate_portrait` and `get_result`. -/
def storedResult (st : St) (sid : String) : ResultEntry :=
  (alookup st.results sid).getD emptyEntry

/-- The top match of the match previously stored for a session, if any:
`RESULT_STORE.get(session_id, \x7b\x7d).get("match")` followed by its
`top_match` field. -/
def storedTopMatch (st : St) (sid : String) : Option ScoreResult :=
  match ((alookup st.results sid).getD emptyEntry).matchRes with
  | none => none
  | some m => m.top_match

theorem storedTopMatch_some_elim (st : St) (sid : String) (t : ScoreResult)
    (h : storedTopMatch st sid = some t) :
    ∃ m, ((alookup st.results sid).getD emptyEntry).matchRes = some m
      ∧ m.top_match = some t := by
  unfold storedTopMatch at h
  cases hm : ((alookup st.results sid).getD emptyEntry).matchRes with
  | none => rw [hm] at h; simp at h
  | some m => rw [hm] at h; exact ⟨m, rfl, h⟩

theorem generate_portrait_no_upload (st : St) (now : Nat) (sid : String)
    (blobExists : String → Bool) (s : Session)
    (hs : get_session_or_404 st now sid = .ok s) (hup : s.uploads = []) :
    generate_portrait st now sid blobExists
      = (st, .error (.badRequest "No selfie uploaded for session")) := by
  simp [generate_portrait, hs, hup]

theorem generate_portrait_no_match (st : St) (now : Nat) (sid : String)
    (blobExists : String → Bool) (s : Session)
    (hs : get_session_or_404 st now sid = .ok s) (hup : s.uploads.isEmpty = false)
    (hm : ((alookup st.results sid).getD emptyEntry).matchRes = none) :
    generate_portrait st now sid blobExists
      = (st, .error (.badRequest "No match computed for session")) := by
  simp [generate_portrait, hs, hup, hm]

theorem generate_portrait_no_top (st : St) (now : Nat) (sid : String)
    (blobExists : String → Bool) (s : Session) (m : MatchResult)
    (hs : get_session_or_404 st now sid = .ok s) (hup : s.uploads.isEmpty = false)
    (hm : ((alookup st.results sid).getD emptyEntry).matchRes = some m)
    (ht : m.top_match = none) :
    generate_portrait st now sid blobExists
      = (st, .error (.badRequest "No match computed for session")) := by
  simp [generate_portrait, hs, hup, hm, ht]

theorem generate_portrait_blob_missing (st : St) (now : Nat) (sid : String)
    (blobExists : String → Bool) (s : Session) (m : MatchResult) (t : ScoreResult)
    (hs : get_session_or_404 st now sid = .ok s) (hup : s.uploads.isEmpty = false)
    (hm : ((alookup st.results sid).getD emptyEntry).matchRes = some m)
    (ht : m.top_match = some t) (hb : blobExists (s.uploads.getLastD "") = false) :
    generate_portrait st now sid blobExists
      = (st, .error (.notFound "Uploaded file not found on server")) := by
  simp [generate_portrait, hs, hup, hm, ht]
  simpa using hb

/-- The store state after a successful portrait generation: the session's
result entry records the deterministic output reference (overwriting any
previous one). -/
def portraitState (st : St) (sid : String) : St :=
  { st with
    results := (setKey st.results sid
      { (alookup st.results sid).getD emptyEntry with
        portrait_url := some ("/media/results/portrait_" ++ sid ++ ".png") }) }

theorem generate_portrait_ok (st : St) (now : Nat) (sid : String)
    (blobExists : String → Bool) (s : Session) (m : MatchResult) (t : ScoreResult)
    (hs : get_session_or_404 st now sid = .ok s) (hup : s.uploads.isEmpty = false)
    (hm : ((alookup st.results sid).getD emptyEntry).matchRes = some m)
    (ht : m.top_match = some t) (hb : blobExists (s.uploads.getLastD "") = true) :
    generate_portrait st now sid blobExists
      = (portraitState st sid, .ok ("/media/results/portrait_" ++ sid ++ ".png")) := by
  simp [generate_portrait, hs, hup, hm, ht, portraitState]
  simpa using hb

/-- C7: `generate_portrait` fails with 400 "no selfie uploaded" when the
session's uploads list is empty; with 400 "no match computed" when no stored
match with a non-null top match exists for the session; otherwise it reads the
most recently appended upload reference and fails with 404 when that blob no
longer exists, succeeding with the deterministic portrait reference when it
does. -/
theorem claim_C7 (st : St) (now : Nat) (sid : String) (blobExists : String → Bool)
    (s : Session) (hs : get_session_or_404 st now sid = .ok s) :
    (s.uploads = [] →
      generate_portrait st now sid blobExists
        = (st, .error (.badRequest "No selfie uploaded for session")))
    ∧ (s.uploads ≠ [] → storedTopMatch st sid = none →
      generate_portrait st now sid blobExists
        = (st, .error (.badRequest "No match computed for session")))
    ∧ (∀ t, s.uploads ≠ [] → storedTopMatch st sid = some t →
        blobExists (s.uploads.getLastD "") = false →
        generate_portrait st now sid blobExists
          = (st, .error (.notFound "Uploaded file not found on server")))
    ∧ (∀ t, s.uploads ≠ [] → storedTopMatch st sid = some t →
        blobExists (s.uploads.getLastD "") = true →
        generate_portrait st now sid blobExists
          = (portraitState st sid, .ok ("/media/results/portrait_" ++ sid ++ ".png"))) := by
  have hupE : s.uploads ≠ [] → s.uploads.isEmpty = false := by
    intro hup
    cases hl : s.uploads with
    | nil => exact absurd hl hup
    | cons a l => rfl
  refine ⟨?_, ?_, ?_, ?_⟩
  · intro hup
    exact generate_portrait_no_upload st now sid blobExists s hs hup
  · intro hup hstm
    unfold storedTopMatch at hstm
    cases hm : ((alookup st.results sid).getD emptyEntry).matchRes with
    | none => exact generate_portrait_no_match st now sid blobExists s hs (hupE hup) hm
    | some m =>
      rw [hm] at hstm
      exact generate_portrait_no_top st now sid blobExists s m hs (hupE hup) hm hstm
  · intro t hup hstm hb
    obtain ⟨m, hm, ht⟩ := storedTopMatch_some_elim st sid t hstm
    exact generate_portrait_blob_missing st now sid blobExists s m t hs (hupE hup) hm ht hb
  · intro t hup hstm hb
    obtain ⟨m, hm, ht⟩ := storedTopMatch_some_elim st sid t hstm
    exact generate_portrait_ok st now sid blobExists s m t hs (hupE hup) hm ht hb

/-- Top score entry of the stored match used by the C7/C8 witness states. -/
def c7TopMatch : ScoreResult := { character_id := "luke", score := 1 }

/-- A previously computed match stored for session s1 in the witness states. -/
def c7Match : MatchResult :=
  { session_id := "s1"
    quiz_id := "default"
    top_match := some c7TopMatch
    scores := [c7TopMatch]
    character := none
    portrait_url := none }

/-- Result-store entry holding the stored match and no portrait yet. -/
def c7Entry : ResultEntry := { matchRes := some c7Match, portrait_url := none }

/-- Witness state: session s1 with one upload and a stored match. -/
def c7St : St :=
  baseSt [("s1", mkSession [] (some "default") ["/media/uploads/u1.png"])]
    [("s1", c7Entry)]

/-- C7 witness: with the upload's blob gone the generation 404s and mutates
nothing; with the blob present it returns the deterministic portrait path. -/
theorem claim_C7_witness :
    generate_portrait c7St 0 "s1" (fun _ => false)
      = (c7St, .error (.notFound "Uploaded file not found on server"))
    ∧ (generate_portrait c7St 0 "s1" (fun _ => true)).2
      = .ok ("/media/results/portrait_" ++ "s1" ++ ".png") :=
  ⟨(claim_C7 c7St 0 "s1" (fun _ => false)
      (mkSession [] (some "default") ["/media/uploads/u1.png"])
      (by with_unfolding_all decide)).2.2.1 c7TopMatch (by decide)
      (by with_unfolding_all decide) rfl,
   by rw [(claim_C7 c7St 0 "s1" (fun _ => true)
      (mkSession [] (some "default") ["/media/uploads/u1.png"])
      (by with_unfolding_all decide)).2.2.2 c7TopMatch (by decide)
      (by with_unfolding_all decide) rfl]⟩

/-- Python-truthiness merge of a stored portrait url into a stored match, as
performed by `get_result`. -/
def mergePortrait (m : MatchResult) : Option String → MatchResult
  | none => m
  | some u => if u = "" then m else { m with portrait_url := some u }

theorem get_result_no_match (st : St) (now : Nat) (sid : String) (s : Session)
    (hs : get_session_or_404 st now sid = .ok s)
    (hm : ((alookup st.results sid).getD emptyEntry).matchRes = none) :
    get_result st now sid = .error (.notFound "No result for session") := by
  simp [get_result, hs, hm]

theorem get_result_merge (st : St) (now : Nat) (sid : String) (s : Session) (m : MatchResult)
    (hs : get_session_or_404 st now sid = .ok s)
    (hm : ((alookup st.results sid).getD emptyEntry).matchRes = some m) :
    get_result st now sid
      = .ok (mergePortrait m ((alookup st.results sid).getD emptyEntry).portrait_url) := by
  cases hp : ((alookup st.results sid).getD emptyEntry).portrait_url with
  | none => simp [get_result, hs, hm, hp, mergePortrait]
  | some u =>
    by_cases hu : u = ""
    · simp [get_result, hs, hm, hp, mergePortrait, hu]
    · simp [get_result, hs, hm, hp, mergePortrait, hu]

/-- Whether a request outcome is a NotFound (404) error. -/
def isNotFoundError {α : Type} : Except Err α → Bool
  | .error (.notFound _) => true
  | _ => false

/-- C8 counterexample: the fetch-result operation can surface an error other
than NotFound — on an expired session it fails with 410 Expired, so the
interface-table reading "NotFound (404) is the only error" is false. -/
theorem claim_C8_counterexample :
    get_result (baseSt [("s1", expiredSession)] []) 10 "s1"
      = .error (.gone "Session expired")
    ∧ isNotFoundError (get_result (baseSt [("s1", expiredSession)] []) 10 "s1") = false := by
  constructor
  · with_unfolding_all decide
  · with_unfolding_all decide

/-- C8 (amended): `get_result` requires the session to exist (404 when the id
is absent, and 410 — not 404 — when the session is expired), fails with
NotFound "No result for session" when no match has ever been computed, and
otherwise returns the stored MatchResult with `portrait_url` merged in from
the separately tracked generation output; NotFound and Expired are the only
errors the operation surfaces. -/
theorem claim_C8 (st : St) (now : Nat) (sid : String) :
    (alookup st.sessions sid = none →
      get_result st now sid = .error (.notFound "Session not found"))
    ∧ (∀ s, alookup st.sessions sid = some s → now > s.expires_at →
      get_result st now sid = .error (.gone "Session expired"))
    ∧ (∀ s, get_session_or_404 st now sid = .ok s →
        (storedResult st sid).matchRes = none →
      get_result st now sid = .error (.notFound "No result for session"))
    ∧ (∀ s m, get_session_or_404 st now sid = .ok s →
        (storedResult st sid).matchRes = some m →
      get_result st now sid = .ok (mergePortrait m (storedResult st sid).portrait_url))
    ∧ (∀ e, get_result st now sid = .error e →
      e = .notFound "Session not found" ∨ e = .notFound "No result for session"
        ∨ e = .gone "Session expired") := by
  refine ⟨?_, ?_, ?_, ?_, ?_⟩
  · intro hn
    exact get_result_session_error st now sid _ (get_session_absent st now sid hn)
  · intro s hs ht
    exact get_result_session_error st now sid _ (get_session_expired st now sid s hs ht)
  · intro s hs hm
    exact get_result_no_match st now sid s hs hm
  · intro s m hs hm
    exact get_result_merge st now sid s m hs hm
  · intro e he
    cases hgs : get_session_or_404 st now sid with
    | error e' =>
      rw [get_result_session_error st now sid e' hgs] at he
      have hee : e' = e := Except.error.inj he
      subst hee
      rcases get_session_error_eq st now sid e' hgs with rfl | rfl
      · exact .inl rfl
      · exact .inr (.inr rfl)
    | ok s =>
      cases hm : ((alookup st.results sid).getD emptyEntry).matchRes with
      | none =>
        rw [get_result_no_match st now sid s hgs hm] at he
        exact .inr (.inl (Except.error.inj he).symm)
      | some m =>
        rw [get_result_merge st now sid s m hgs hm] at he
        cases he

/-- C8 witness: an unknown session id 404s, and with a stored match and no
portrait yet, `get_result` returns the stored match unchanged. -/
theorem claim_C8_witness :
    get_result (baseSt [] []) 0 "zz" = .error (.notFound "Session not found")
    ∧ get_result c7St 0 "s1"
      = .ok (mergePortrait c7Match (storedResult c7St "s1").portrait_url) :=
  ⟨(claim_C8 (baseSt [] []) 0 "zz").1 (by decide),
   (claim_C8 c7St 0 "s1").2.2.2.1
     (mkSession [] (some "default") ["/media/uploads/u1.png"]) c7Match
     (by with_unfolding_all decide) (by with_unfolding_all decide)⟩

theorem totalScore_congr (st st' : St) (hq : st'.questions = st.questions)
    (answers : List (String × String)) (cid : String) :
    totalScore st' answers cid = totalScore st answers cid := by
  have hw : answerWeight st' cid = answerWeight st cid := by
    funext a
    unfold answerWeight answerChoice
    rw [hq]
  unfold totalScore
  rw [hw]

/-- C3: for valid (question, choice) pairs, `submit_answer` followed by
`compute_scores` attributes exactly the submitted choice's weight map to the
tally, and resubmitting a different valid choice for the same question
replaces the prior contribution: submit(q,c₁); submit(q,c₂) produces exactly
the same store state as submit(q,c₂) alone (answers is last-write-wins). -/
theorem claim_C3 (st : St) (now : Nat) (sid qz qid c₁ c₂ : String)
    (h₁ : (submit_answer st now sid qz qid c₁).2 = .ok ())
    (h₂ : (submit_answer st now sid qz qid c₂).2 = .ok ()) :
    submit_answer (submit_answer st now sid qz qid c₁).1 now sid qz qid c₂
      = submit_answer st now sid qz qid c₂
    ∧ ∀ s, alookup st.sessions sid = some s →
        ∃ q ch s₂,
          alookup st.questions qid = some q
          ∧ q.choices.find? (fun c => c.id = c₂) = some ch
          ∧ alookup (submit_answer st now sid qz qid c₂).1.sessions sid = some s₂
          ∧ s₂.answers = setKey s.answers qid c₂
          ∧ (qid ∉ s.answers.map Prod.fst →
              ∀ results,
                compute_scores (submit_answer st now sid qz qid c₂).1 s₂ = .ok results →
                ∀ r ∈ results,
                  r.score = totalScore st s.answers r.character_id
                    + sumWeights ch.weights r.character_id) := by
  obtain ⟨s1, q1, hgs1, hqz1, hqn1, hc1, heq1⟩ := submit_answer_ok_elim st now sid qz qid c₁ h₁
  obtain ⟨s2, q2, hgs2, hqz2, hqn2, hc2, heq2⟩ := submit_answer_ok_elim st now sid qz qid c₂ h₂
  have hss : s2 = s1 := Except.ok.inj (hgs2.symm.trans hgs1)
  subst hss
  have hqq : q2 = q1 := Option.some.inj (hqn2.symm.trans hqn1)
  subst hqq
  obtain ⟨qzv, hqzv⟩ := Option.isSome_iff_exists.mp hqz1
  obtain ⟨-, hexp⟩ := get_session_ok_elim st now sid s2 hgs1
  have hfst1 : (submit_answer st now sid qz qid c₁).1
      = { st with sessions := setKey st.sessions sid (answeredSession s2 qz qid c₁) } := by
    rw [heq1]
  have hfst2 : (submit_answer st now sid qz qid c₂).1
      = { st with sessions := setKey st.sessions sid (answeredSession s2 qz qid c₂) } := by
    rw [heq2]
  constructor
  · have hgs1' : get_session_or_404
        { st with sessions := setKey st.sessions sid (answeredSession s2 qz qid c₁) } now sid
        = .ok (answeredSession s2 qz qid c₁) := by
      apply get_session_live
      · exact alookup_setKey_self st.sessions sid (answeredSession s2 qz qid c₁)
      · exact hexp
    have happ2 := submit_answer_ok_eq
      { st with sessions := setKey st.sessions sid (answeredSession s2 qz qid c₁) }
      now sid qz qid c₂ (answeredSession s2 qz qid c₁) qzv q2 hgs1' hqzv hqn1 hc2
    rw [hfst1, happ2, heq2]
    simp [answeredSession, setKey_setKey]
  · intro s hs
    have hl1 : alookup st.sessions sid = some s2 :=
      (get_session_ok_elim st now sid s2 hgs1).1
    have hs2 : s = s2 := Option.some.inj (hs.symm.trans hl1)
    subst hs2
    obtain ⟨ch, hch, -⟩ := find_choice_of_contains q2.choices c₂ hc2
    refine ⟨q2, ch, answeredSession s qz qid c₂, hqn1, hch, ?_, rfl, ?_⟩
    · rw [hfst2]
      exact alookup_setKey_self st.sessions sid (answeredSession s qz qid c₂)
    · intro hfresh results hcs r hr
      have hq_eq : (submit_answer st now sid qz qid c₂).1.questions = st.questions := by
        rw [hfst2]
      have hsc := compute_scores_score_eq _ _ _ hcs r hr
      rw [totalScore_congr st (submit_answer st now sid qz qid c₂).1 hq_eq] at hsc
      have hnone : alookup s.answers qid = none := (alookup_eq_none_iff _ _).mpr hfresh
      have hans : (answeredSession s qz qid c₂).answers = s.answers ++ [(qid, c₂)] := by
        show setKey s.answers qid c₂ = s.answers ++ [(qid, c₂)]
        exact setKey_eq_append s.answers qid c₂ hnone
      rw [hans, totalScore_append] at hsc
      have hac : answerChoice st (qid, c₂) = some ch := by
        unfold answerChoice
        rw [hqn1]
        exact hch
      have hsingle : totalScore st [(qid, c₂)] r.character_id
          = sumWeights ch.weights r.character_id := by
        simp [totalScore, answerWeight_eq_sum st r.character_id (qid, c₂) ch hac]
      rw [hsingle] at hsc
      exact hsc

/-- C3 witness: on the seeded catalog, submitting q1/c1 and then q1/c2 leaves
the very same store state as submitting q1/c2 alone. -/
theorem claim_C3_witness :
    submit_answer
        (submit_answer (baseSt [("s1", mkSession [] none [])] []) 0 "s1" "default" "q1" "c1").1
        0 "s1" "default" "q1" "c2"
      = submit_answer (baseSt [("s1", mkSession [] none [])] []) 0 "s1" "default" "q1" "c2" :=
  (claim_C3 (baseSt [("s1", mkSession [] none [])] []) 0 "s1" "default" "q1" "c1" "c2"
    (by with_unfolding_all decide) (by with_unfolding_all decide)).1
